import Mathlib

/-!
Shallow embedding of `src/script.js` (Vienna Kitchen & Bakehouse front-end
script) and verification of its specification.

Modelling conventions:
* `classList` of a DOM element is a `List String`; `classList.add`,
  `classList.remove` and `classList.contains` are `classAdd`, `classRemove`
  and `classContains` below.
* Pixel quantities (scroll offsets, `offsetTop`, `offsetHeight`) are `Int`;
  geometric quantities from `getBoundingClientRect` and CSS time values are
  `ℚ`.
* A nullable DOM reference is an `Option`; a handler that can throw on a null
  dereference returns `Except JsError _`.
* Inline style properties are `Option String` (or a numeric field where the
  claim is numeric): `none` means the property was never set.
-/

namespace Vienna

/-- Thrown when the script dereferences a missing (null) DOM element. -/
inductive JsError where
  | nullDeref
  deriving DecidableEq

/-- Semantics of `el.classList.add(c)`: appends `c` unless already present. -/
def classAdd (cs : List String) (c : String) : List String :=
  if c ∈ cs then cs else cs ++ [c]

/-- Semantics of `el.classList.remove(c)`: removes every occurrence of `c`. -/
def classRemove (cs : List String) (c : String) : List String :=
  cs.filter (fun x => x != c)

/-- Semantics of `el.classList.contains(c)`. -/
def classContains (cs : List String) (c : String) : Bool :=
  decide (c ∈ cs)

/-- Lines 76-84 of `src/script.js`: the navbar scroll-styling listener.
`scrollY` is `window.scrollY`; the result is the navbar class list after the
handler ran. -/
def navbarScrollHandler (scrollY : Int) (navbarClasses : List String) : List String :=
  if scrollY > 50 then classAdd navbarClasses "scrolled"
  else classRemove navbarClasses "scrolled"

/-- A `<section>` element as read by the script: `id` is
`section.getAttribute('id')` (`none` when the attribute is absent),
`offsetTop` its document-relative top, `clientHeight` its height (read at
line 258 but never used). -/
structure SectionEl where
  id : Option String
  offsetTop : Int
  clientHeight : Int
  deriving DecidableEq

/-- A navigation link (`.nav-link`): its `href` attribute and class list. -/
structure NavLink where
  href : String
  classes : List String
  deriving DecidableEq

/-- Line 98 of `src/script.js`: `link.getAttribute('href').substring(1)`. -/
def hrefFragment (l : NavLink) : String :=
  l.href.drop 1

/-- Lines 254-264 of `src/script.js`: the `sections.forEach` loop of the
active-link scroll listener.  `current` starts as the string `''` (modelled
`some ""`); each section whose condition holds overwrites it with that
section's id attribute.  `navbar.offsetHeight` is read in every iteration, so
a missing navbar throws as soon as there is one section. -/
def computeCurrent (navbarHeight : Option Int) (scrollY : Int) :
    Option String → List SectionEl → Except JsError (Option String)
  | current, [] => Except.ok current
  | current, s :: rest =>
    match navbarHeight with
    | none => Except.error JsError.nullDeref
    | some nh =>
      computeCurrent navbarHeight scrollY
        (if s.offsetTop - nh - 100 ≤ scrollY then s.id else current) rest

/-- Lines 267-272 of `src/script.js`: every link first has `active` removed,
then `active` added when its href fragment equals `current`. -/
def updateActiveLinks (links : List NavLink) (current : Option String) : List NavLink :=
  links.map (fun l =>
    let cleared := classRemove l.classes "active"
    if some (hrefFragment l) = current then
      { l with classes := classAdd cleared "active" }
    else
      { l with classes := cleared })

/-- Lines 250-273 of `src/script.js`: the whole active-link scroll listener.
An exception raised inside the `forEach` aborts the handler before any link
is touched. -/
def activeNavScroll (navbarHeight : Option Int) (sections : List SectionEl)
    (links : List NavLink) (scrollY : Int) : Except JsError (List NavLink) :=
  match computeCurrent navbarHeight scrollY (some "") sections with
  | Except.error e => Except.error e
  | Except.ok current => Except.ok (updateActiveLinks links current)

/-- The condition of line 261 of `src/script.js`, as a predicate on one
section: its top minus the navbar height minus the 100-unit margin is at or
above the scroll offset. -/
def sectionHit (nh scrollY : Int) (s : SectionEl) : Bool :=
  decide (s.offsetTop - nh - 100 ≤ scrollY)

/-- The section the specification designates: the last section in document
order satisfying the `sectionHit` condition. -/
def lastHit (sections : List SectionEl) (nh scrollY : Int) : Option SectionEl :=
  (sections.filter (sectionHit nh scrollY)).getLast?

/-- Mutable page state touched by the navigation click handlers. -/
structure PageState where
  scrollY : Int
  hamburgerClasses : List String
  navMenuClasses : List String
  deriving DecidableEq

/-- Lines 41-46 of `src/script.js`: the close-menu listener attached to every
nav link (only installed when both `hamburger` and `navMenu` exist). -/
def closeMenuOnLinkClick (st : PageState) : PageState :=
  { st with hamburgerClasses := classRemove st.hamburgerClasses "active",
            navMenuClasses := classRemove st.navMenuClasses "active" }

/-- Semantics of `document.getElementById`: the first element whose id
attribute equals the argument. -/
def getElementById (doc : List SectionEl) (targetId : String) : Option SectionEl :=
  doc.find? (fun s => s.id == some targetId)

/-- Line 34 of `src/script.js`: the guard installing the hamburger/menu
toggle wiring. -/
def hamburgerWiringInstalled (hamburgerPresent navMenuPresent : Bool) : Bool :=
  hamburgerPresent && navMenuPresent

/-- Lines 41-46 and 93-113 of `src/script.js`: the combined effect of one
click on a navigation link.  The close-menu listener (installed only when
both menu elements exist) runs first, then the smooth-scroll listener: it
looks up the link's target section and, when found, reads
`navbar.offsetHeight` (throwing when the navbar is missing) and scrolls to
the target top minus the navbar height. -/
def navLinkClick (navbarHeight : Option Int) (doc : List SectionEl) (link : NavLink)
    (hamburgerPresent navMenuPresent : Bool) (st : PageState) : Except JsError PageState :=
  let st2 := if hamburgerPresent && navMenuPresent then closeMenuOnLinkClick st else st
  match getElementById doc (hrefFragment link) with
  | some targetSection =>
    match navbarHeight with
    | none => Except.error JsError.nullDeref
    | some nh => Except.ok { st2 with scrollY := targetSection.offsetTop - nh }
  | none => Except.ok st2

/-- One `IntersectionObserverEntry`: the observed element (by identity) and
its `isIntersecting` flag. -/
structure ObsEntry where
  target : Nat
  isIntersecting : Bool
  deriving DecidableEq

/-- Bookkeeping state of the intersection observer of lines 144-183 of
`src/script.js`: the set of currently observed elements, and the log of
elements whose entrance animation has been triggered, in trigger order. -/
structure ObsState where
  watched : List Nat
  triggered : List Nat
  deriving DecidableEq

/-- Lines 151-170 of `src/script.js`: the body of the `entries.forEach`.  An
intersecting entry has its animation triggered (logged) and is passed to
`observer.unobserve` (removed from `watched`); a non-intersecting entry is
ignored. -/
def processEntry (st : ObsState) (e : ObsEntry) : ObsState :=
  if e.isIntersecting then
    { watched := st.watched.filter (fun x => x != e.target),
      triggered := st.triggered ++ [e.target] }
  else st

/-- Lines 150-172 of `src/script.js`: `observerCallback`. -/
def observerCallback (st : ObsState) (entries : List ObsEntry) : ObsState :=
  entries.foldl processEntry st

/-- A run of the observer over a series of callback deliveries. -/
def runObserver : ObsState → List (List ObsEntry) → ObsState
  | st, [] => st
  | st, b :: bs => runObserver (observerCallback st b) bs

/-- Browser guarantee: within one callback delivery each observed element
produces at most one entry. -/
def batchTargetsNodup : List ObsEntry → Bool
  | [] => true
  | e :: es => es.all (fun e2 => e2.target != e.target) && batchTargetsNodup es

/-- Browser guarantee for one callback delivery: entries are only generated
for elements currently under observation, at most one per element. -/
def validBatch (watched : List Nat) (entries : List ObsEntry) : Bool :=
  entries.all (fun e => watched.contains e.target) && batchTargetsNodup entries

/-- A series of callback deliveries the browser can actually produce for the
evolving observation set. -/
def validTrace : ObsState → List (List ObsEntry) → Bool
  | _, [] => true
  | st, b :: bs => validBatch st.watched b && validTrace (observerCallback st b) bs

/-- Invariant tying the trigger log to the observation set: no element is
triggered twice, a triggered element is no longer observed, and an
untriggered element is observed exactly when it was initially observed. -/
def ObsInv (elems : List Nat) (st : ObsState) : Prop :=
  st.triggered.Nodup ∧ (∀ x ∈ st.triggered, x ∉ st.watched) ∧
    (∀ x, x ∉ st.triggered → (x ∈ st.watched ↔ x ∈ elems))

/-- An element as touched by the animation-triggering code and the
reduced-motion guard: identity, class list, and the inline style properties
`animationDelay` (seconds, as written at line 156), `animation` and
`transition`. -/
structure Element where
  eid : Nat
  classes : List String
  animationDelay : Option ℚ
  animation : Option String
  transition : Option String
  deriving DecidableEq

/-- Semantics of `Array.prototype.indexOf`: zero-based index of the first
occurrence, `-1` when absent. -/
def jsIndexOf (l : List Nat) (x : Nat) : Int :=
  match l.findIdx? (fun y => y == x) with
  | some i => (i : Int)
  | none => -1

/-- Lines 153-169 of `src/script.js`: the style/class mutation applied to one
intersecting entry's target.  `menuCards` is the cached `.menu-card`
collection in document order (element identities). -/
def animateTarget (menuCards : List Nat) (el : Element) : Element :=
  let el1 :=
    if classContains el.classes "menu-card" = true then
      { el with animationDelay := some (((jsIndexOf menuCards el.eid : Int) : ℚ) * (1 / 10)) }
    else el
  let el2 := { el1 with classes := classAdd el1.classes "fade-in-up" }
  if classContains el2.classes "gallery-item" = true then
    { el2 with classes := classRemove el2.classes "fade-in-up",
               animation := some "fadeIn 0.8s ease-out forwards" }
  else el2

/-- CSSOM semantics of assigning through an element's `style` object
(`el.style.prop = v`): the value string is parsed as a CSS value; a value
that itself carries a priority annotation (a bang character, as in
`none !important`) is invalid, and an invalid assignment leaves the
declaration unchanged. -/
def styleAssign (old : Option String) (v : String) : Option String :=
  if v.toList.contains (Char.ofNat 33) then old else some v

/-- Document-wide state touched by the reduced-motion guard. -/
structure DocState where
  scrollBehavior : Option String
  elements : List Element
  deriving DecidableEq

/-- Lines 294-302 of `src/script.js`: the reduced-motion guard, run once at
script evaluation.  When the preference matches it assigns `auto` to the
document's `scrollBehavior` and the string `none !important` to every
element's `animation` and `transition` style properties. -/
def reducedMotionGuard (prefersReducedMotion : Bool) (doc : DocState) : DocState :=
  if prefersReducedMotion then
    { scrollBehavior := styleAssign doc.scrollBehavior "auto",
      elements := doc.elements.map (fun el =>
        { el with animation := styleAssign el.animation "none !important",
                  transition := styleAssign el.transition "none !important" }) }
  else doc

/-- Lines 310-316 of `src/script.js`: the timing semantics of `debounce`.
Given the sorted times of the calls to the debounced wrapper, returns the
times at which the wrapped function actually runs: each call clears the
pending timer and schedules the function at its own time plus `delay`, so
the timer of a call survives exactly when no further call arrives strictly
before it fires. -/
def debounceFires (delay : Nat) : List Nat → List Nat
  | [] => []
  | [t] => [t + delay]
  | t :: t2 :: rest =>
    (if t2 < t + delay then ([] : List Nat) else [t + delay]) ++
      debounceFires delay (t2 :: rest)

/-- A burst of events in which each event arrives within less than `delay`
time-units of the previous one. -/
def burstUnder (delay : Nat) : List Nat → Bool
  | [] => true
  | [_] => true
  | t :: t2 :: rest => decide (t2 < t + delay) && burstUnder delay (t2 :: rest)

/-- Result of `getBoundingClientRect()` on the call-to-action control. -/
structure Rect where
  left : ℚ
  top : ℚ
  width : ℚ
  height : ℚ
  deriving DecidableEq

/-- The `span` element built by the mousedown handler: its inline size and
position style values (pixels) and its class list. -/
structure RippleEl where
  styleWidth : ℚ
  styleHeight : ℚ
  styleLeft : ℚ
  styleTop : ℚ
  classes : List String
  deriving DecidableEq

/-- Lines 228-242 of `src/script.js`: the mousedown handler of the
call-to-action control.  `doc` stands for the document's node tree (any
representation); the handler constructs the ripple element but never appends
it, so the tree is returned unchanged alongside the orphan element. -/
def ctaMouseDown (doc : List Nat) (rect : Rect) (clientX clientY : ℚ) :
    List Nat × RippleEl :=
  let size := max rect.width rect.height
  let x := clientX - rect.left - size / 2
  let y := clientY - rect.top - size / 2
  (doc,
    { styleWidth := size, styleHeight := size, styleLeft := x, styleTop := y,
      classes := classAdd [] "ripple" })

/-- The features the top-level script wires up, in source order. -/
inductive Feature where
  | hamburgerToggle
  | logoClick
  | navbarScrollStyle
  | navLinkSmoothScroll
  | ctaClickScroll
  | animationObserver
  | menuCardHover
  | galleryHover
  | ctaRipple
  | activeLinkHighlight
  | heroLoadFade
  | reducedMotionCheck
  | resizeDebounce
  | mapInit
  deriving DecidableEq

/-- Presence of the nullable elements the top-level code dereferences or
guards. -/
structure DomPresence where
  hamburger : Bool
  navMenu : Bool
  logo : Bool
  ctaButton : Bool
  deriving DecidableEq

/-- Top-level evaluation of `src/script.js` (lines 17-398): each wiring step
in source order.  The guarded steps (lines 34, 55) are skipped when their
elements are missing; the unguarded `ctaButton.addEventListener` call at
line 121 throws when `.cta-button` is missing, aborting evaluation, so no
later feature is installed. -/
def scriptEval (d : DomPresence) : List Feature × Option JsError :=
  let installed : List Feature := []
  let installed :=
    if d.hamburger && d.navMenu then installed ++ [Feature.hamburgerToggle] else installed
  let installed := if d.logo then installed ++ [Feature.logoClick] else installed
  let installed := installed ++ [Feature.navbarScrollStyle]
  let installed := installed ++ [Feature.navLinkSmoothScroll]
  if d.ctaButton = false then
    (installed, some JsError.nullDeref)
  else
    let installed := installed ++ [Feature.ctaClickScroll]
    let installed := installed ++ [Feature.animationObserver]
    let installed := installed ++ [Feature.menuCardHover]
    let installed := installed ++ [Feature.galleryHover]
    let installed := installed ++ [Feature.ctaRipple]
    let installed := installed ++ [Feature.activeLinkHighlight]
    let installed := installed ++ [Feature.heroLoadFade]
    let installed := installed ++ [Feature.reducedMotionCheck]
    let installed := installed ++ [Feature.resizeDebounce]
    let installed := installed ++ [Feature.mapInit]
    (installed, none)

/-! Helper lemmas about the class-list primitives. -/

lemma classContains_iff (cs : List String) (c : String) :
    classContains cs c = true ↔ c ∈ cs :=
  decide_eq_true_iff

lemma mem_classAdd (cs : List String) (c c2 : String) :
    c2 ∈ classAdd cs c ↔ c2 = c ∨ c2 ∈ cs := by
  unfold classAdd
  split
  · constructor
    · intro h; exact Or.inr h
    · rintro (rfl | h)
      · assumption
      · assumption
  · simp only [List.mem_append, List.mem_singleton]
    exact Or.comm

lemma mem_classRemove (cs : List String) (c c2 : String) :
    c2 ∈ classRemove cs c ↔ c2 ∈ cs ∧ c2 ≠ c := by
  simp [classRemove, List.mem_filter]

lemma classContains_classAdd_self (cs : List String) (c : String) :
    classContains (classAdd cs c) c = true := by
  rw [classContains_iff, mem_classAdd]
  exact Or.inl rfl

lemma classContains_classRemove_self (cs : List String) (c : String) :
    classContains (classRemove cs c) c = false := by
  rw [← Bool.not_eq_true, classContains_iff, mem_classRemove]
  simp

lemma classContains_classAdd_ne (cs : List String) (c c2 : String) (h : c2 ≠ c) :
    classContains (classAdd cs c) c2 = classContains cs c2 := by
  unfold classContains
  rw [decide_eq_decide, mem_classAdd]
  simp [h]

/-- C4. After any scroll event, the navbar carries the `scrolled` class if
and only if the vertical scroll offset exceeds 50 units; at an offset of
exactly 50 the navbar lacks the class. -/
theorem C4_navbar_scrolled (scrollY : Int) (navbarClasses : List String) :
    (classContains (navbarScrollHandler scrollY navbarClasses) "scrolled" = true ↔
      50 < scrollY) ∧
    classContains (navbarScrollHandler 50 navbarClasses) "scrolled" = false := by
  constructor
  · unfold navbarScrollHandler
    split
    · simpa [classContains_classAdd_self]
    · simp only [classContains_classRemove_self, Bool.false_eq_true, false_iff]
      omega
  · unfold navbarScrollHandler
    simp [classContains_classRemove_self]

/-- C9. The mousedown handler of the call-to-action control builds a ripple
element whose width and height equal the larger of the control's rendered
width and height, positioned at the pointer's coordinates relative to the
control offset by half that size, tagged with the `ripple` class — and it
leaves the document's node tree unchanged. -/
theorem C9_ripple_constructed (doc : List Nat) (rect : Rect) (clientX clientY : ℚ) :
    (ctaMouseDown doc rect clientX clientY).2.styleWidth = max rect.width rect.height ∧
    (ctaMouseDown doc rect clientX clientY).2.styleHeight = max rect.width rect.height ∧
    (ctaMouseDown doc rect clientX clientY).2.styleLeft =
      clientX - rect.left - max rect.width rect.height / 2 ∧
    (ctaMouseDown doc rect clientX clientY).2.styleTop =
      clientY - rect.top - max rect.width rect.height / 2 ∧
    classContains (ctaMouseDown doc rect clientX clientY).2.classes "ripple" = true ∧
    (ctaMouseDown doc rect clientX clientY).1 = doc :=
  ⟨rfl, rfl, rfl, rfl, classContains_classAdd_self [] "ripple", rfl⟩

/-- C10. When `.cta-button` is missing, top-level evaluation throws at the
unguarded `ctaButton.addEventListener` call: the features wired before it
(hamburger toggle, logo click, navbar scroll styling, nav-link smooth
scroll) are installed, and every feature wired after it is not. -/
theorem C10_missing_cta_aborts (d : DomPresence) (hc : d.ctaButton = false)
    (hh : d.hamburger = true) (hm : d.navMenu = true) (hl : d.logo = true) :
    (scriptEval d).2 = some JsError.nullDeref ∧
    (scriptEval d).1 = [Feature.hamburgerToggle, Feature.logoClick,
      Feature.navbarScrollStyle, Feature.navLinkSmoothScroll] ∧
    Feature.animationObserver ∉ (scriptEval d).1 ∧
    Feature.menuCardHover ∉ (scriptEval d).1 ∧
    Feature.galleryHover ∉ (scriptEval d).1 ∧
    Feature.ctaRipple ∉ (scriptEval d).1 ∧
    Feature.activeLinkHighlight ∉ (scriptEval d).1 ∧
    Feature.reducedMotionCheck ∉ (scriptEval d).1 ∧
    Feature.resizeDebounce ∉ (scriptEval d).1 ∧
    Feature.mapInit ∉ (scriptEval d).1 := by
  obtain ⟨dh, dm, dl, dc⟩ := d
  simp only at hc hh hm hl
  subst hc hh hm hl
  decide

/-- Witness for C10 at a concrete document: every element present except the
call-to-action button. -/
theorem C10_witness :
    (scriptEval ⟨true, true, true, false⟩).2 = some JsError.nullDeref ∧
    (scriptEval ⟨true, true, true, false⟩).1 = [Feature.hamburgerToggle,
      Feature.logoClick, Feature.navbarScrollStyle, Feature.navLinkSmoothScroll] :=
  ⟨(C10_missing_cta_aborts ⟨true, true, true, false⟩ rfl rfl rfl rfl).1,
   (C10_missing_cta_aborts ⟨true, true, true, false⟩ rfl rfl rfl rfl).2.1⟩

/-- A burst whose consecutive gaps are all below the delay produces a single
trailing fire, `delay` after the last event. -/
lemma debounceFires_burst (delay : Nat) :
    ∀ (t : Nat) (rest : List Nat), burstUnder delay (t :: rest) = true →
      debounceFires delay (t :: rest) = [rest.getLastD t + delay]
  | _, [], _ => by simp [debounceFires]
  | t, t2 :: rest, h => by
    have hb : (decide (t2 < t + delay) && burstUnder delay (t2 :: rest)) = true := h
    rw [Bool.and_eq_true] at hb
    have h1 : t2 < t + delay := of_decide_eq_true hb.1
    have ih := debounceFires_burst delay t2 rest hb.2
    have hstep : debounceFires delay (t :: t2 :: rest) = debounceFires delay (t2 :: rest) := by
      simp [debounceFires, h1]
    rw [hstep, ih, List.getLastD_cons]

/-- C7. For every nonempty burst of resize events in which each event
arrives within less than 250 time-units of the previous one, the debounced
handler fires exactly once, exactly 250 time-units after the last event of
the burst. -/
theorem C7_debounce_single_fire (t : Nat) (rest : List Nat)
    (hburst : burstUnder 250 (t :: rest) = true) :
    debounceFires 250 (t :: rest) = [(t :: rest).getLastD 0 + 250] := by
  rw [List.getLastD_cons]
  exact debounceFires_burst 250 t rest hburst

/-- Witness for C7: ten events, each 10 time-units after the previous, fire
once at 90 + 250 = 340. -/
theorem C7_witness :
    debounceFires 250 [0, 10, 20, 30, 40, 50, 60, 70, 80, 90] = [340] :=
  (C7_debounce_single_fire 0 [10, 20, 30, 40, 50, 60, 70, 80, 90]
    (by decide)).trans (by decide)

/-- Processing one entry whose target is still observed preserves the
observer invariant. -/
lemma processEntry_inv (elems : List Nat) (st : ObsState) (e : ObsEntry)
    (hI : ObsInv elems st) (ht : e.target ∈ st.watched) :
    ObsInv elems (processEntry st e) := by
  obtain ⟨hnd, htw, hun⟩ := hI
  unfold processEntry
  split
  · have htnew : e.target ∉ st.triggered := fun hmem => htw e.target hmem ht
    refine ⟨?_, ?_, ?_⟩
    · simp only [List.nodup_append, List.nodup_singleton, List.disjoint_singleton]
      exact ⟨hnd, trivial, htnew⟩
    · intro x hx
      rw [List.mem_append, List.mem_singleton] at hx
      rcases hx with hx | rfl
      · intro hmem
        exact htw x hx (List.mem_filter.mp hmem).1
      · intro hmem
        have := (List.mem_filter.mp hmem).2
        simp at this
    · intro x hx
      rw [List.mem_append, List.mem_singleton] at hx
      push_neg at hx
      rw [List.mem_filter]
      have hne : (x != e.target) = true := by simpa using hx.2
      rw [← hun x hx.1]
      simp [hne]
  · exact ⟨hnd, htw, hun⟩

/-- One callback delivery of browser-producible entries preserves the
observer invariant. -/
lemma observerCallback_inv (elems : List Nat) :
    ∀ (entries : List ObsEntry) (st : ObsState), ObsInv elems st →
      validBatch st.watched entries = true →
      ObsInv elems (observerCallback st entries)
  | [], _, hI, _ => hI
  | e :: es, st, hI, hv => by
    have hv' : st.watched.contains e.target = true ∧
        (es.all (fun e2 => e2.target != e.target)) = true ∧
        (es.all (fun e2 => st.watched.contains e2.target)) = true ∧
        batchTargetsNodup es = true := by
      simp only [validBatch, batchTargetsNodup, List.all_cons, Bool.and_eq_true] at hv
      exact ⟨hv.1.1, hv.2.1, hv.1.2, hv.2.2⟩
    have hmem : e.target ∈ st.watched := List.elem_iff.mp hv'.1
    have hI' := processEntry_inv elems st e hI hmem
    have hbatch : validBatch (processEntry st e).watched es = true := by
      unfold validBatch
      rw [Bool.and_eq_true]
      refine ⟨List.all_eq_true.mpr ?_, hv'.2.2.2⟩
      intro e2 he2
      have h1 : (e2.target != e.target) = true :=
        List.all_eq_true.mp hv'.2.1 e2 he2
      have h2 : e2.target ∈ st.watched :=
        List.elem_iff.mp (List.all_eq_true.mp hv'.2.2.1 e2 he2)
      unfold processEntry
      split
      · exact List.elem_iff.mpr (List.mem_filter.mpr ⟨h2, h1⟩)
      · exact List.elem_iff.mpr h2
    exact observerCallback_inv elems es (processEntry st e) hI' hbatch

/-- Any browser-producible series of callback deliveries preserves the
observer invariant. -/
lemma runObserver_inv (elems : List Nat) :
    ∀ (trace : List (List ObsEntry)) (st : ObsState), ObsInv elems st →
      validTrace st trace = true → ObsInv elems (runObserver st trace)
  | [], _, hI, _ => hI
  | b :: bs, st, hI, hv => by
    have hv' : validBatch st.watched b = true ∧
        validTrace (observerCallback st b) bs = true := by
      simpa only [validTrace, Bool.and_eq_true] using hv
    exact runObserver_inv elems bs (observerCallback st b)
      (observerCallback_inv elems b st hI hv'.1) hv'.2

/-- C2. Starting from the initial observation set, over any series of
callback deliveries the browser can produce, each element's entrance
animation is triggered at most once (the trigger log has no duplicates), a
triggered element is no longer observed, and an element is removed from
observation only when triggered. -/
theorem C2_one_shot_animation (elems : List Nat) (trace : List (List ObsEntry))
    (hv : validTrace ⟨elems, []⟩ trace = true) :
    (runObserver ⟨elems, []⟩ trace).triggered.Nodup ∧
    (∀ x ∈ (runObserver ⟨elems, []⟩ trace).triggered,
        x ∉ (runObserver ⟨elems, []⟩ trace).watched) ∧
    (∀ x, x ∉ (runObserver ⟨elems, []⟩ trace).triggered →
        (x ∈ (runObserver ⟨elems, []⟩ trace).watched ↔ x ∈ elems)) :=
  runObserver_inv elems trace ⟨elems, []⟩
    ⟨List.nodup_nil, by simp, by simp⟩ hv

/-- Witness for C2: two elements; element 1 intersects in the first
delivery, element 2 in the second; the trigger log has no duplicates. -/
theorem C2_witness :
    (runObserver ⟨[1, 2], []⟩
      [[⟨1, true⟩, ⟨2, false⟩], [⟨2, true⟩]]).triggered.Nodup :=
  (C2_one_shot_animation [1, 2] [[⟨1, true⟩, ⟨2, false⟩], [⟨2, true⟩]]
    (by decide)).1

/-- The class list produced by `animateTarget`: `fade-in-up` is added, then
removed again exactly for gallery items. -/
lemma animateTarget_classes (menuCards : List Nat) (el : Element) :
    (animateTarget menuCards el).classes =
      if classContains el.classes "gallery-item" = true then
        classRemove (classAdd el.classes "fade-in-up") "fade-in-up"
      else classAdd el.classes "fade-in-up" := by
  have hgi : classContains (classAdd el.classes "fade-in-up") "gallery-item" =
      classContains el.classes "gallery-item" :=
    classContains_classAdd_ne _ _ _ (by decide)
  unfold animateTarget
  cases h1 : classContains el.classes "menu-card" <;>
    cases h2 : classContains el.classes "gallery-item" <;> simp [h1, h2, hgi]

/-- The animation-delay produced by `animateTarget`: set exactly for menu
cards, from the JavaScript `indexOf` of the element. -/
lemma animateTarget_delay (menuCards : List Nat) (el : Element) :
    (animateTarget menuCards el).animationDelay =
      if classContains el.classes "menu-card" = true then
        some (((jsIndexOf menuCards el.eid : Int) : ℚ) * (1 / 10))
      else el.animationDelay := by
  have hgi : classContains (classAdd el.classes "fade-in-up") "gallery-item" =
      classContains el.classes "gallery-item" :=
    classContains_classAdd_ne _ _ _ (by decide)
  unfold animateTarget
  cases h1 : classContains el.classes "menu-card" <;>
    cases h2 : classContains el.classes "gallery-item" <;> simp [h1, h2, hgi]

/-- The inline animation produced by `animateTarget`: overridden exactly for
gallery items. -/
lemma animateTarget_animationStyle (menuCards : List Nat) (el : Element) :
    (animateTarget menuCards el).animation =
      if classContains el.classes "gallery-item" = true then
        some "fadeIn 0.8s ease-out forwards"
      else el.animation := by
  have hgi : classContains (classAdd el.classes "fade-in-up") "gallery-item" =
      classContains el.classes "gallery-item" :=
    classContains_classAdd_ne _ _ _ (by decide)
  unfold animateTarget
  cases h1 : classContains el.classes "menu-card" <;>
    cases h2 : classContains el.classes "gallery-item" <;> simp [h1, h2, hgi]

/-- C5. When an observed element's animation is triggered: a menu card
receives an animation delay of its zero-based index in the menu-card
collection times 0.1 seconds; a gallery item receives the distinct `fadeIn`
animation and loses the default `fade-in-up` class; every other element ends
up with the `fade-in-up` class. -/
theorem C5_animation_selection (menuCards : List Nat) (el : Element) :
    (∀ i : Nat, List.findIdx? (fun y => y == el.eid) menuCards = some i →
        classContains el.classes "menu-card" = true →
        (animateTarget menuCards el).animationDelay = some ((i : ℚ) * (1 / 10))) ∧
    (classContains el.classes "gallery-item" = true →
        (animateTarget menuCards el).animation = some "fadeIn 0.8s ease-out forwards" ∧
        classContains (animateTarget menuCards el).classes "fade-in-up" = false) ∧
    (classContains el.classes "gallery-item" = false →
        classContains (animateTarget menuCards el).classes "fade-in-up" = true) := by
  refine ⟨?_, ?_, ?_⟩
  · intro i hidx hmc
    rw [animateTarget_delay, if_pos hmc]
    simp [jsIndexOf, hidx]
  · intro hgi
    constructor
    · rw [animateTarget_animationStyle, if_pos hgi]
    · rw [animateTarget_classes, if_pos hgi]
      exact classContains_classRemove_self _ _
  · intro hgi
    rw [animateTarget_classes]
    simp only [hgi, Bool.false_eq_true, if_false]
    exact classContains_classAdd_self _ _

/-- Witness for C5: a menu card at index 1 of the collection gets delay
0.1 s and ends with `fade-in-up`; a gallery item gets the `fadeIn` animation
and no `fade-in-up` class. -/
theorem C5_witness :
    (animateTarget [5, 7, 9] ⟨7, ["menu-card"], none, none, none⟩).animationDelay =
      some ((1 : ℚ) * (1 / 10)) ∧
    classContains (animateTarget [5, 7, 9]
      ⟨7, ["menu-card"], none, none, none⟩).classes "fade-in-up" = true ∧
    (animateTarget [] ⟨3, ["gallery-item"], none, none, none⟩).animation =
      some "fadeIn 0.8s ease-out forwards" ∧
    classContains (animateTarget []
      ⟨3, ["gallery-item"], none, none, none⟩).classes "fade-in-up" = false := by
  refine ⟨?_, ?_, ?_, ?_⟩
  · exact (C5_animation_selection [5, 7, 9] ⟨7, ["menu-card"], none, none, none⟩).1
      1 (by decide) (by decide)
  · exact (C5_animation_selection [5, 7, 9]
      ⟨7, ["menu-card"], none, none, none⟩).2.2 (by decide)
  · exact ((C5_animation_selection []
      ⟨3, ["gallery-item"], none, none, none⟩).2.1 (by decide)).1
  · exact ((C5_animation_selection []
      ⟨3, ["gallery-item"], none, none, none⟩).2.1 (by decide)).2

/-- With the navbar present, the `forEach` loop of the active-link listener
computes the id attribute of the last section satisfying the scroll
condition, or keeps the accumulator when no section satisfies it. -/
lemma computeCurrent_ok (nh scrollY : Int) :
    ∀ (sections : List SectionEl) (current : Option String),
      computeCurrent (some nh) scrollY current sections =
        Except.ok (match lastHit sections nh scrollY with
                   | some s => s.id
                   | none => current)
  | [], current => by simp [computeCurrent, lastHit]
  | s :: rest, current => by
    by_cases h : s.offsetTop - nh - 100 ≤ scrollY
    · have hstep : computeCurrent (some nh) scrollY current (s :: rest) =
          computeCurrent (some nh) scrollY s.id rest := by
        simp [computeCurrent, h]
      have hfilter : (s :: rest).filter (sectionHit nh scrollY) =
          s :: rest.filter (sectionHit nh scrollY) := by
        simp [List.filter_cons, sectionHit, h]
      rw [hstep, computeCurrent_ok nh scrollY rest s.id]
      unfold lastHit
      rw [hfilter]
      cases hfr : rest.filter (sectionHit nh scrollY) with
      | nil => simp [lastHit, hfr]
      | cons b bs =>
        rw [List.getLast?_cons_cons]
        cases hg : (b :: bs).getLast? with
        | none => simp at hg
        | some u => simp [lastHit, hfr, hg]
    · have hstep : computeCurrent (some nh) scrollY current (s :: rest) =
          computeCurrent (some nh) scrollY current rest := by
        simp [computeCurrent, h]
      have hfilter : (s :: rest).filter (sectionHit nh scrollY) =
          rest.filter (sectionHit nh scrollY) := by
        simp [List.filter_cons, sectionHit, h]
      rw [hstep, computeCurrent_ok nh scrollY rest current]
      unfold lastHit
      rw [hfilter]

/-- A link in the output of `updateActiveLinks` carries `active` exactly when
its href fragment equals the `current` value. -/
lemma mem_updateActiveLinks (links : List NavLink) (cur : Option String) (l : NavLink)
    (hl : l ∈ updateActiveLinks links cur) :
    classContains l.classes "active" = true ↔ some (hrefFragment l) = cur := by
  obtain ⟨l0, _, rfl⟩ := List.mem_map.mp hl
  by_cases hc : some (hrefFragment l0) = cur
  · simp only [hrefFragment] at hc ⊢
    simp [hc, classContains_classAdd_self]
  · simp only [hrefFragment] at hc ⊢
    simp [hc, classContains_classRemove_self]

/-- C1 (amended). After a run of the active-link scroll handler with the
navbar present, a navigation link carries `active` exactly when: some
section satisfies the scroll condition and the id attribute of the last such
section equals the link's href fragment — or no section satisfies it and the
link's href fragment is the empty string (the handler's `current` sentinel
is `''`, which an href of `"#"` matches). -/
theorem C1_active_link_indicator (nh scrollY : Int) (sections : List SectionEl)
    (links links2 : List NavLink)
    (hrun : activeNavScroll (some nh) sections links scrollY = Except.ok links2) :
    ∀ l ∈ links2,
      (classContains l.classes "active" = true ↔
        match lastHit sections nh scrollY with
        | some s => s.id = some (hrefFragment l)
        | none => hrefFragment l = "") := by
  intro l hl
  unfold activeNavScroll at hrun
  rw [computeCurrent_ok nh scrollY sections (some "")] at hrun
  cases hlast : lastHit sections nh scrollY with
  | none =>
    rw [hlast] at hrun
    have hrun2 : updateActiveLinks links (some "") = links2 := by
      simpa using hrun
    have h2 := mem_updateActiveLinks links (some "") l (hrun2 ▸ hl)
    simpa using h2
  | some s =>
    rw [hlast] at hrun
    have hrun2 : updateActiveLinks links s.id = links2 := by
      simpa using hrun
    have h2 := mem_updateActiveLinks links s.id l (hrun2 ▸ hl)
    rw [h2]
    exact eq_comm

/-- Counterexample to C1 as stated: with no sections at all (so no section
satisfies the condition) and a single navigation link with href `"#"`, the
handler still marks that link active, because the link's empty fragment
equals the `''` sentinel. -/
theorem C1_counterexample :
    activeNavScroll (some 80) [] [⟨"#", []⟩] 0 =
      Except.ok [⟨"#", ["active"]⟩] ∧
    lastHit [] 80 0 = none :=
  ⟨rfl, rfl⟩

/-- Witness for C1 at a concrete page: one satisfying section `about` and a
link with href `#about`, which ends up active. -/
theorem C1_witness : classContains ["active"] "active" = true := by
  have h := C1_active_link_indicator 80 300 [⟨some "about", 200, 100⟩]
    [⟨"#about", []⟩] [⟨"#about", ["active"]⟩] rfl
    ⟨"#about", ["active"]⟩ (List.mem_singleton.mpr rfl)
  exact h.mpr rfl

/-- C3. Clicking a navigation link whose target section exists (navbar and
both menu elements present) scrolls so that the new offset is the section's
top minus the navbar height, and removes the `active` state from the
hamburger and the menu container. -/
theorem C3_nav_link_scroll (doc : List SectionEl) (nh : Int) (link : NavLink)
    (st : PageState) (s : SectionEl)
    (hfind : getElementById doc (hrefFragment link) = some s) :
    navLinkClick (some nh) doc link true true st =
      Except.ok { scrollY := s.offsetTop - nh,
                  hamburgerClasses := classRemove st.hamburgerClasses "active",
                  navMenuClasses := classRemove st.navMenuClasses "active" } ∧
    classContains (classRemove st.hamburgerClasses "active") "active" = false ∧
    classContains (classRemove st.navMenuClasses "active") "active" = false := by
  refine ⟨?_, classContains_classRemove_self _ _, classContains_classRemove_self _ _⟩
  unfold navLinkClick
  simp [hfind, closeMenuOnLinkClick]

/-- Witness for C3: clicking `#about` with the section at top 200 and navbar
height 80 scrolls to 120 and closes the open menu. -/
theorem C3_witness :
    navLinkClick (some 80) [⟨some "about", 200, 100⟩] ⟨"#about", []⟩ true true
        ⟨0, ["active"], ["active"]⟩ =
      Except.ok { scrollY := (200 : Int) - 80,
                  hamburgerClasses := classRemove ["active"] "active",
                  navMenuClasses := classRemove ["active"] "active" } ∧
    classContains (classRemove ["active"] "active") "active" = false ∧
    classContains (classRemove ["active"] "active") "active" = false :=
  C3_nav_link_scroll [⟨some "about", 200, 100⟩] 80 ⟨"#about", []⟩
    ⟨0, ["active"], ["active"]⟩ ⟨some "about", 200, 100⟩ rfl

/-- Counterexample to C8 as stated: the navigation controller does have an
error path for a missing element — with the navbar missing and one section
present, the active-link scroll listener dereferences the null navbar and
throws instead of being skipped. -/
theorem C8_counterexample :
    activeNavScroll none [⟨some "home", 0, 600⟩] [] 0 =
      Except.error JsError.nullDeref :=
  rfl

/-- C8 (amended). The toggle wiring is installed exactly when both the
hamburger and the menu element exist, and a link click whose target section
does not exist performs no scroll (the feature is skipped); but the guarding
does not cover every navigation-controller operation: the active-link scroll
listener (and the link click handler when its target exists) dereference the
navbar without a presence check and throw when it is missing. -/
theorem C8_guarding (hp mp : Bool) (doc : List SectionEl) (nb : Option Int)
    (link : NavLink) (st : PageState) (sections : List SectionEl)
    (links : List NavLink) (scrollY : Int) :
    (hamburgerWiringInstalled hp mp = true ↔ hp = true ∧ mp = true) ∧
    (getElementById doc (hrefFragment link) = none →
      navLinkClick nb doc link hp mp st =
        Except.ok (if hp && mp then closeMenuOnLinkClick st else st) ∧
      (if hp && mp then closeMenuOnLinkClick st else st).scrollY = st.scrollY) ∧
    (sections ≠ [] →
      activeNavScroll none sections links scrollY = Except.error JsError.nullDeref) ∧
    (∀ s, getElementById doc (hrefFragment link) = some s →
      navLinkClick none doc link hp mp st = Except.error JsError.nullDeref) := by
  refine ⟨by simp [hamburgerWiringInstalled], ?_, ?_, ?_⟩
  · intro hnone
    constructor
    · unfold navLinkClick
      simp [hnone]
    · cases hpm : hp && mp <;> simp [closeMenuOnLinkClick]
  · intro hne
    cases sections with
    | nil => exact absurd rfl hne
    | cons s rest => rfl
  · intro s hs
    unfold navLinkClick
    simp [hs]

/-- Witness for C8: a click on a link whose target is absent only closes the
menu, and the active-link listener with a missing navbar throws. -/
theorem C8_witness :
    navLinkClick none [] ⟨"#menu", []⟩ true true ⟨5, [], []⟩ =
      Except.ok (if true && true then closeMenuOnLinkClick ⟨5, [], []⟩
        else ⟨5, [], []⟩) ∧
    activeNavScroll none [⟨some "menu", 700, 400⟩] [] 120 =
      Except.error JsError.nullDeref := by
  constructor
  · exact ((C8_guarding true true [] none ⟨"#menu", []⟩ ⟨5, [], []⟩ [] [] 0).2.1 rfl).1
  · exact (C8_guarding true true [] none ⟨"#menu", []⟩ ⟨5, [], []⟩
      [⟨some "menu", 700, 400⟩] [] 120).2.2.1 (by simp)

/-- C6 (code bug). With the reduced-motion preference set, the guard does
set the document scroll behavior to `auto`, but the assignments of the
string `none !important` to every element's `animation` and `transition`
style properties are invalid CSS values (a priority cannot be written inside
the value), so the declarations are left unchanged and animations are not in
fact disabled — here an element with no inline styles and one with a running
animation and transition both come out unchanged. -/
theorem C6_reduced_motion_bug :
    (reducedMotionGuard true ⟨none,
      [⟨0, [], none, none, none⟩,
       ⟨1, [], none, some "spin 1s linear", some "all 0.3s"⟩]⟩).scrollBehavior =
      some "auto" ∧
    (reducedMotionGuard true ⟨none,
      [⟨0, [], none, none, none⟩,
       ⟨1, [], none, some "spin 1s linear", some "all 0.3s"⟩]⟩).elements.map
        Element.animation = [none, some "spin 1s linear"] ∧
    (reducedMotionGuard true ⟨none,
      [⟨0, [], none, none, none⟩,
       ⟨1, [], none, some "spin 1s linear", some "all 0.3s"⟩]⟩).elements.map
        Element.transition = [none, some "all 0.3s"] :=
  ⟨rfl, rfl, rfl⟩

end Vienna
